import Mathlib

/-!
Shallow embedding of `examples/client.py` (ApartmentScraperClient) from the
Apartment-scraper repository, together with proofs of the specification
claims about it.

Modelling choices:
* JSON values are the inductive `Json`; Python `dict` subscript (`d[k]`,
  raising `KeyError` / `TypeError`) and `dict.get` are modelled by
  `Json.subscript` and `Json.getDefault`.
* The HTTP layer (`requests.Session`) is an oracle
  `Env := Nat → HttpRequest → Except String Json`: the `n`-th request issued
  through the session receives either the decoded JSON body of a successful
  response (`.ok`) or the underlying HTTP-library error (`.error`, covering
  both transport failures and `raise_for_status` on a non-2xx response).
* `time.time()` readings are an abstract sequence `clock : Nat → Int`
  (reading `i` is the value of the `i`-th call; reading 0 is `start_time`).
  `time.sleep` only influences the clock, so it does not appear in the pure
  model.
* The `while` loop of `poll_until_complete` is fuel-indexed; `none` means
  the fuel ran out before the loop decided anything.
* Every operation also returns the list of HTTP requests it issued, in
  order, so that claims about retries and about further requests can be
  stated.
-/

/-- JSON values, as decoded by `response.json()`. -/
inductive Json where
  | null : Json
  | bool : Bool → Json
  | num : Int → Json
  | str : String → Json
  | arr : List Json → Json
  | obj : List (String × Json) → Json

/-- Python exceptions that the client code can raise. -/
inductive PyError where
  | keyError : String → PyError
  | typeError : String → PyError
  | runtimeError : String → PyError
  | timeoutError : String → PyError
  | httpError : String → PyError
  deriving DecidableEq, Repr

/-- First-match association-list lookup (JSON objects have unique keys). -/
def Json.lookupKey : List (String × Json) → String → Option Json
  | [], _ => none
  | (k, v) :: rest, key => if k = key then some v else Json.lookupKey rest key

/-- Python subscript `data[key]`: `KeyError` when the key is absent from a
dict, `TypeError` when the value is not a dict at all. -/
def Json.subscript : Json → String → Except PyError Json
  | .obj kvs, key =>
    match Json.lookupKey kvs key with
    | some v => .ok v
    | none => .error (.keyError key)
  | _, key => .error (.typeError key)

/-- Python `data.get(key)`: `None` (modelled `Json.null`) when absent. -/
def Json.getDefault : Json → String → Json
  | .obj kvs, key =>
    match Json.lookupKey kvs key with
    | some v => v
    | none => .null
  | _, _ => .null

/-- Python `==` between a decoded-JSON value and a string literal: true
exactly when the value is that very string (matching the source tests such
as `status.status == 'completed'`). -/
def Json.eqStr : Json → String → Bool
  | .str s, t => s = t
  | _, _ => false

/-- Surround a string with single quotes, as Python `repr` does. -/
def pyQuote (s : String) : String :=
  "\x27" ++ s ++ "\x27"

mutual

/-- Python `repr` of a decoded-JSON value (used inside containers). -/
def pyRepr : Json → String
  | .null => "None"
  | .bool true => "True"
  | .bool false => "False"
  | .num n => toString n
  | .str s => pyQuote s
  | .arr xs => "[" ++ pyReprList xs ++ "]"
  | .obj kvs => "\x7b" ++ pyReprObj kvs ++ "\x7d"

/-- Comma-joined `repr`s of the elements of a Python list. -/
def pyReprList : List Json → String
  | [] => ""
  | [x] => pyRepr x
  | x :: xs => pyRepr x ++ ", " ++ pyReprList xs

/-- Comma-joined `repr`s of the entries of a Python dict. -/
def pyReprObj : List (String × Json) → String
  | [] => ""
  | [(k, v)] => pyQuote k ++ ": " ++ pyRepr v
  | (k, v) :: kvs => pyQuote k ++ ": " ++ pyRepr v ++ ", " ++ pyReprObj kvs

end

/-- Python `str` of a decoded-JSON value (what an f-string interpolates). -/
def pyStr : Json → String
  | .str s => s
  | j => pyRepr j

/-- Python `s.rstrip(c)`: remove every trailing occurrence of `c`. -/
def pyRstrip (s : String) (c : Char) : String :=
  ⟨(s.data.reverse.dropWhile (fun a => a = c)).reverse⟩

/-- Request object for starting a scrape (dataclass `ScrapeRequest`).
`filters` is `Optional[Dict[str, Any]]`, modelled as an optional
key-ordered association list; `max_pages` defaults to 5. -/
structure ScrapeRequest where
  city : String
  state : String
  filters : Option (List (String × Json)) := none
  max_pages : Int := 5

/-- Job status response (dataclass `JobStatus`). Python dataclasses do not
check the annotated types at runtime, so every field holds whatever JSON
value the response carried; `completed_at`/`error` hold `Json.null` for
Python `None`. -/
structure JobStatus where
  job_id : Json
  status : Json
  progress : Json
  created_at : Json
  updated_at : Json
  completed_at : Json := Json.null
  error : Json := Json.null

/-- HTTP method of a request issued through the session. -/
inductive HttpMethod where
  | get : HttpMethod
  | post : HttpMethod
  deriving DecidableEq

/-- One HTTP request issued through the session: method, full URL, and the
JSON body for `json=payload` calls. -/
structure HttpRequest where
  method : HttpMethod
  url : String
  body : Option Json := none

/-- The HTTP environment: the response to the `n`-th request issued through
the session. `.ok body` is the decoded JSON of a 2xx response; `.error e`
is the HTTP library error raised for a transport failure or by
`raise_for_status` on a non-2xx response. -/
def Env : Type :=
  Nat → HttpRequest → Except String Json

/-- The client (`ApartmentScraperClient.__init__`): stores
`base_url.rstrip('/')`, the optional API key, and the session headers the
constructor installs. -/
structure ApartmentScraperClient where
  base_url : String
  api_key : Option String
  session_headers : List (String × String)

/-- `ApartmentScraperClient(base_url, api_key)`. -/
def ApartmentScraperClient.init (base_url : String) (api_key : Option String := none) :
    ApartmentScraperClient where
  base_url := pyRstrip base_url (Char.ofNat 47)
  api_key := api_key
  session_headers :=
    match api_key with
    | some key => [("Authorization", "Bearer " ++ key)]
    | none => []

/-- The JSON body built by `start_scrape`: `city`, `state`, `maxPages`,
then `filters` added only when `request.filters` is truthy (not `None` and
not the empty dict). -/
def startPayload (request : ScrapeRequest) : List (String × Json) :=
  let payload := [("city", Json.str request.city), ("state", Json.str request.state),
                  ("maxPages", Json.num request.max_pages)]
  match request.filters with
  | some f => if f.isEmpty then payload else payload ++ [("filters", Json.obj f)]
  | none => payload

/-- The POST request issued by `start_scrape`. -/
def startHttpReq (c : ApartmentScraperClient) (request : ScrapeRequest) : HttpRequest where
  method := .post
  url := c.base_url ++ "/api/scrape/start"
  body := some (Json.obj (startPayload request))

/-- The GET request issued by `get_status` (the f-string interpolates the
job id with `str`). -/
def statusHttpReq (c : ApartmentScraperClient) (job_id : Json) : HttpRequest where
  method := .get
  url := c.base_url ++ "/api/scrape/status/" ++ pyStr job_id

/-- The GET request issued by `get_results`. -/
def resultsHttpReq (c : ApartmentScraperClient) (job_id : Json) : HttpRequest where
  method := .get
  url := c.base_url ++ "/api/scrape/results/" ++ pyStr job_id

/-- The POST request issued by `cancel_job`. -/
def cancelHttpReq (c : ApartmentScraperClient) (job_id : Json) : HttpRequest where
  method := .post
  url := c.base_url ++ "/api/scrape/cancel/" ++ pyStr job_id

/-- `start_scrape`: POST the payload; `raise_for_status` surfaces the HTTP
error, otherwise the decoded JSON body is returned. The second component
lists the HTTP requests the call issued. -/
def ApartmentScraperClient.start_scrape (c : ApartmentScraperClient) (env : Env) (n : Nat)
    (request : ScrapeRequest) : Except PyError Json × List HttpRequest :=
  let req := startHttpReq c request
  match env n req with
  | .error e => (.error (.httpError e), [req])
  | .ok body => (.ok body, [req])

/-- Decoding of a status response into a `JobStatus`, exactly as the
`JobStatus(...)` construction in `get_status` evaluates: the five required
fields by subscript (raising on absence), `completedAt`/`error` via
`.get` (defaulting to `None`). -/
def decodeJobStatus (data : Json) : Except PyError JobStatus :=
  match data.subscript "jobId" with
  | .error e => .error e
  | .ok jobId =>
  match data.subscript "status" with
  | .error e => .error e
  | .ok status =>
  match data.subscript "progress" with
  | .error e => .error e
  | .ok progress =>
  match data.subscript "createdAt" with
  | .error e => .error e
  | .ok createdAt =>
  match data.subscript "updatedAt" with
  | .error e => .error e
  | .ok updatedAt =>
  .ok { job_id := jobId, status := status, progress := progress,
        created_at := createdAt, updated_at := updatedAt,
        completed_at := data.getDefault "completedAt",
        error := data.getDefault "error" }

/-- `get_status`: GET, surface HTTP errors, decode into a `JobStatus`. -/
def ApartmentScraperClient.get_status (c : ApartmentScraperClient) (env : Env) (n : Nat)
    (job_id : Json) : Except PyError JobStatus × List HttpRequest :=
  let req := statusHttpReq c job_id
  match env n req with
  | .error e => (.error (.httpError e), [req])
  | .ok data => (decodeJobStatus data, [req])

/-- `get_results`: GET, surface HTTP errors, return the raw decoded JSON. -/
def ApartmentScraperClient.get_results (c : ApartmentScraperClient) (env : Env) (n : Nat)
    (job_id : Json) : Except PyError Json × List HttpRequest :=
  let req := resultsHttpReq c job_id
  match env n req with
  | .error e => (.error (.httpError e), [req])
  | .ok body => (.ok body, [req])

/-- `cancel_job`: POST, surface HTTP errors, return the raw decoded JSON. -/
def ApartmentScraperClient.cancel_job (c : ApartmentScraperClient) (env : Env) (n : Nat)
    (job_id : Json) : Except PyError Json × List HttpRequest :=
  let req := cancelHttpReq c job_id
  match env n req with
  | .error e => (.error (.httpError e), [req])
  | .ok body => (.ok body, [req])

/-- The progress print inside the poll loop subscripts
`status.progress['currentPage']`, `['totalPages']`, `['listingsScraped']`
in that order; each can raise. The printing itself has no other effect. -/
def printProgress (status : JobStatus) : Except PyError Unit :=
  match status.progress.subscript "currentPage" with
  | .error e => .error e
  | .ok _ =>
  match status.progress.subscript "totalPages" with
  | .error e => .error e
  | .ok _ =>
  match status.progress.subscript "listingsScraped" with
  | .error e => .error e
  | .ok _ => .ok ()

/-- The `while time.time() - start_time < timeout` loop of
`poll_until_complete`. `clock i` is the `i`-th `time.time()` reading
(`clock 0` is `start_time`; iteration `i` is guarded by reading `i + 1`,
`time.sleep(interval)` influencing only the clock). `i` counts loop
iterations, `n` the requests issued so far through the session, `fuel`
bounds the iterations the model unfolds (`none` = fuel ran out before the
loop decided). -/
def pollLoop (c : ApartmentScraperClient) (env : Env) (clock : Nat → Int) (job_id : Json)
    (timeout : Int) : Nat → Nat → Nat → Option (Except PyError Json × List HttpRequest)
  | 0, _, _ => none
  | fuel + 1, i, n =>
    if clock (i + 1) - clock 0 < timeout then
      match c.get_status env n job_id with
      | (.error e, tr) => some (.error e, tr)
      | (.ok st, tr) =>
        if st.status.eqStr "completed" then
          match c.get_results env (n + 1) job_id with
          | (res, tr2) => some (res, tr ++ tr2)
        else if st.status.eqStr "failed" then
          some (.error (.runtimeError ("Job failed: " ++ pyStr st.error)), tr)
        else if st.status.eqStr "cancelled" then
          some (.error (.runtimeError "Job was cancelled"), tr)
        else
          match printProgress st with
          | .error e => some (.error e, tr)
          | .ok _ =>
            match pollLoop c env clock job_id timeout fuel (i + 1) (n + 1) with
            | none => none
            | some (res, tr2) => some (res, tr ++ tr2)
    else
      some (.error (.timeoutError
        ("Job did not complete within " ++ toString timeout ++ " seconds")), [])

/-- `poll_until_complete` (source defaults: `interval = 5`,
`timeout = 300`). `interval` is consumed only by `time.sleep`, whose effect
is already captured by the clock readings. -/
def ApartmentScraperClient.poll_until_complete (c : ApartmentScraperClient) (env : Env)
    (clock : Nat → Int) (job_id : Json) (interval : Int) (timeout : Int) (fuel n : Nat) :
    Option (Except PyError Json × List HttpRequest) :=
  pollLoop c env clock job_id timeout fuel 0 n

/-- `scrape_and_wait`: start the job, read `result['jobId']`, poll with
the default timeout of 300, and return `results['results']`. -/
def ApartmentScraperClient.scrape_and_wait (c : ApartmentScraperClient) (env : Env)
    (clock : Nat → Int) (request : ScrapeRequest) (poll_interval : Int) (fuel : Nat) :
    Option (Except PyError Json × List HttpRequest) :=
  match c.start_scrape env 0 request with
  | (.error e, tr) => some (.error e, tr)
  | (.ok result, tr) =>
    match result.subscript "jobId" with
    | .error e => some (.error e, tr)
    | .ok job_id =>
      match c.poll_until_complete env clock job_id poll_interval 300 fuel 1 with
      | none => none
      | some (.error e, tr2) => some (.error e, tr ++ tr2)
      | some (.ok results, tr2) =>
        match results.subscript "results" with
        | .error e => some (.error e, tr ++ tr2)
        | .ok res => some (.ok res, tr ++ tr2)

/-- A status payload on which one poll iteration neither terminates nor
raises: it decodes, its status is none of the three terminal strings, and
the progress mapping supplies the keys the progress print subscripts (the
well-formedness the data model in the specification promises). -/
def goodPending (data : Json) : Bool :=
  match decodeJobStatus data with
  | .error _ => false
  | .ok st =>
    !(st.status.eqStr "completed") && !(st.status.eqStr "failed") &&
      !(st.status.eqStr "cancelled") &&
      (match printProgress st with
       | .ok _ => true
       | .error _ => false)

lemma goodPending_spec (p : Json) (h : goodPending p = true) :
    ∃ st, decodeJobStatus p = .ok st ∧ st.status.eqStr "completed" = false ∧
      st.status.eqStr "failed" = false ∧ st.status.eqStr "cancelled" = false ∧
      printProgress st = .ok () := by
  unfold goodPending at h
  cases hd : decodeJobStatus p with
  | error e => rw [hd] at h; cases h
  | ok st =>
    rw [hd] at h
    simp only [Bool.and_eq_true, Bool.not_eq_true'] at h
    obtain ⟨⟨⟨h1, h2⟩, h3⟩, h4⟩ := h
    refine ⟨st, rfl, h1, h2, h3, ?_⟩
    cases hp : printProgress st with
    | error e => rw [hp] at h4; cases h4
    | ok u => cases u; rfl

/-- Stepping lemma: `k` in-time, well-formed, non-terminal polls just
advance the loop by `k` iterations and prepend `k` status requests to the
trace. -/
lemma pollLoop_skip (c : ApartmentScraperClient) (env : Env) (clock : Nat → Int)
    (job_id : Json) (timeout : Int) (k : Nat) :
    ∀ fuel i n,
      (∀ j, j < k → clock (i + j + 1) - clock 0 < timeout) →
      (∀ j, j < k → ∃ p, env (n + j) (statusHttpReq c job_id) = .ok p ∧ goodPending p = true) →
      pollLoop c env clock job_id timeout (k + fuel) i n =
        (pollLoop c env clock job_id timeout fuel (i + k) (n + k)).map
          (fun rt => (rt.1, List.replicate k (statusHttpReq c job_id) ++ rt.2)) := by
  induction k with
  | zero =>
    intro fuel i n _ _
    simp only [Nat.zero_add, Nat.add_zero]
    cases pollLoop c env clock job_id timeout fuel i n with
    | none => rfl
    | some rt => rfl
  | succ k ih =>
    intro fuel i n hclock hpend
    obtain ⟨p, hp, hgood⟩ := hpend 0 (Nat.succ_pos k)
    obtain ⟨st, hdec, hc1, hc2, hc3, hprint⟩ := goodPending_spec p hgood
    have hstep : pollLoop c env clock job_id timeout (k + 1 + fuel) i n =
        match pollLoop c env clock job_id timeout (k + fuel) (i + 1) (n + 1) with
        | none => none
        | some (res, tr2) => some (res, statusHttpReq c job_id :: tr2) := by
      have hck := hclock 0 (Nat.succ_pos k)
      have hfe : k + 1 + fuel = (k + fuel) + 1 := by omega
      rw [hfe]
      rw [pollLoop]
      simp only [Nat.add_zero] at hp hck
      simp only [hck, if_true, ApartmentScraperClient.get_status, hp, hdec, hc1, hc2, hc3,
        hprint, Bool.false_eq_true, if_false]
      cases pollLoop c env clock job_id timeout (k + fuel) (i + 1) (n + 1) with
      | none => rfl
      | some rt => rfl
    rw [hstep]
    rw [ih fuel (i + 1) (n + 1)
      (fun j hj => by
        have := hclock (j + 1) (by omega)
        have he : i + (j + 1) + 1 = i + 1 + j + 1 := by omega
        rw [he] at this
        exact this)
      (fun j hj => by
        have := hpend (j + 1) (by omega)
        have he : n + (j + 1) = n + 1 + j := by omega
        rw [he] at this
        exact this)]
    have he1 : i + 1 + k = i + (k + 1) := by omega
    have he2 : n + 1 + k = n + (k + 1) := by omega
    rw [he1, he2]
    cases pollLoop c env clock job_id timeout fuel (i + (k + 1)) (n + (k + 1)) with
    | none => rfl
    | some rt =>
      simp [List.replicate_succ]

lemma get_results_trace (c : ApartmentScraperClient) (env : Env) (n : Nat) (job_id : Json) :
    (c.get_results env n job_id).2 = [resultsHttpReq c job_id] := by
  unfold ApartmentScraperClient.get_results
  cases h : env n (resultsHttpReq c job_id) <;> simp [h]

/-- An in-time poll whose status decodes to `completed` makes the loop
return whatever `get_results` returns next, after issuing exactly one more
status request and the results request. -/
lemma pollLoop_completed_step (c : ApartmentScraperClient) (env : Env) (clock : Nat → Int)
    (job_id : Json) (timeout : Int) (fuel i n : Nat) (p : Json) (st : JobStatus)
    (hclock : clock (i + 1) - clock 0 < timeout)
    (hp : env n (statusHttpReq c job_id) = .ok p)
    (hdec : decodeJobStatus p = .ok st)
    (hst : st.status = Json.str "completed") :
    pollLoop c env clock job_id timeout (fuel + 1) i n =
      some ((c.get_results env (n + 1) job_id).1,
        statusHttpReq c job_id :: [resultsHttpReq c job_id]) := by
  rw [pollLoop]
  simp only [hclock, if_true, ApartmentScraperClient.get_status, hp, hdec, hst]
  have hres := get_results_trace c env (n + 1) job_id
  cases hgr : c.get_results env (n + 1) job_id with
  | mk res tr2 =>
    rw [hgr] at hres
    simp only [Json.eqStr, decide_eq_true_eq, if_pos rfl] at hres ⊢
    simp [hres]

/-- An in-time poll whose status decodes to `failed` raises
`RuntimeError` with the formatted server error, issuing no further
request. -/
lemma pollLoop_failed_step (c : ApartmentScraperClient) (env : Env) (clock : Nat → Int)
    (job_id : Json) (timeout : Int) (fuel i n : Nat) (p : Json) (st : JobStatus)
    (hclock : clock (i + 1) - clock 0 < timeout)
    (hp : env n (statusHttpReq c job_id) = .ok p)
    (hdec : decodeJobStatus p = .ok st)
    (hst : st.status = Json.str "failed") :
    pollLoop c env clock job_id timeout (fuel + 1) i n =
      some (.error (.runtimeError ("Job failed: " ++ pyStr st.error)),
        [statusHttpReq c job_id]) := by
  rw [pollLoop]
  simp only [hclock, if_true, ApartmentScraperClient.get_status, hp, hdec, hst]
  simp [Json.eqStr]

/-- An in-time poll whose status decodes to `cancelled` raises
`RuntimeError('Job was cancelled')`, issuing no further request. -/
lemma pollLoop_cancelled_step (c : ApartmentScraperClient) (env : Env) (clock : Nat → Int)
    (job_id : Json) (timeout : Int) (fuel i n : Nat) (p : Json) (st : JobStatus)
    (hclock : clock (i + 1) - clock 0 < timeout)
    (hp : env n (statusHttpReq c job_id) = .ok p)
    (hdec : decodeJobStatus p = .ok st)
    (hst : st.status = Json.str "cancelled") :
    pollLoop c env clock job_id timeout (fuel + 1) i n =
      some (.error (.runtimeError "Job was cancelled"), [statusHttpReq c job_id]) := by
  rw [pollLoop]
  simp only [hclock, if_true, ApartmentScraperClient.get_status, hp, hdec, hst]
  simp [Json.eqStr]

/-- When the clock check fails, the loop raises the `TimeoutError` without
issuing any request. -/
lemma pollLoop_timeout_step (c : ApartmentScraperClient) (env : Env) (clock : Nat → Int)
    (job_id : Json) (timeout : Int) (fuel i n : Nat)
    (hclock : ¬ (clock (i + 1) - clock 0 < timeout)) :
    pollLoop c env clock job_id timeout (fuel + 1) i n =
      some (.error (.timeoutError
        ("Job did not complete within " ++ toString timeout ++ " seconds")), []) := by
  rw [pollLoop]
  simp only [hclock, if_false]

/-- When the status request itself fails, the loop propagates the HTTP
error at once, issuing no further request. -/
lemma pollLoop_httpError_step (c : ApartmentScraperClient) (env : Env) (clock : Nat → Int)
    (job_id : Json) (timeout : Int) (fuel i n : Nat) (e : String)
    (hclock : clock (i + 1) - clock 0 < timeout)
    (hp : env n (statusHttpReq c job_id) = .error e) :
    pollLoop c env clock job_id timeout (fuel + 1) i n =
      some (.error (.httpError e), [statusHttpReq c job_id]) := by
  rw [pollLoop]
  simp only [hclock, if_true, ApartmentScraperClient.get_status, hp]

/-- The cancellation message can never coincide with a job-failure
message, whatever the server-reported error text is. -/
lemma cancelled_msg_ne_failed_msg (x : String) :
    ("Job was cancelled" : String) ≠ "Job failed: " ++ x := by
  intro h
  have h2 : "Job was cancelled".data = "Job failed: ".data ++ x.data := by
    rw [h, String.data_append]
  have h3 := congrArg (fun l => l[4]?) h2
  simp only [List.getElem?_append_left
    (by decide : (4 : Nat) < "Job failed: ".data.length)] at h3
  exact absurd h3 (by decide)

/-- C1: as soon as a polled status is `completed`, `poll_until_complete`
returns whatever `get_results` returns, after exactly `k + 1` status polls
followed by the single results request — no further status poll. Polls
before `k` are in time, well formed and non-terminal; the poll at `k` is
in time and decodes with status `completed`. -/
theorem poll_until_complete_returns_results_on_completed
    (c : ApartmentScraperClient) (env : Env) (clock : Nat → Int) (job_id : Json)
    (interval timeout : Int) (fuel n k : Nat) (p : Json) (st : JobStatus)
    (hfuel : k < fuel)
    (hclock : ∀ j, j ≤ k → clock (j + 1) - clock 0 < timeout)
    (hpend : ∀ j, j < k → ∃ q, env (n + j) (statusHttpReq c job_id) = .ok q ∧
      goodPending q = true)
    (hp : env (n + k) (statusHttpReq c job_id) = .ok p)
    (hdec : decodeJobStatus p = .ok st)
    (hst : st.status = Json.str "completed") :
    c.poll_until_complete env clock job_id interval timeout fuel n =
      some ((c.get_results env (n + k + 1) job_id).1,
        List.replicate (k + 1) (statusHttpReq c job_id) ++ [resultsHttpReq c job_id]) := by
  unfold ApartmentScraperClient.poll_until_complete
  have hfe : fuel = k + ((fuel - k - 1) + 1) := by omega
  rw [hfe, pollLoop_skip c env clock job_id timeout k ((fuel - k - 1) + 1) 0 n
    (fun j hj => by simpa using hclock j (Nat.le_of_lt hj)) hpend]
  rw [pollLoop_completed_step c env clock job_id timeout (fuel - k - 1) (0 + k) (n + k) p st
    (by simpa using hclock k le_rfl) hp hdec hst]
  simp [List.replicate_succ', List.append_assoc]

/-- C2: a polled status `failed` whose error field is the string `x` makes
`poll_until_complete` raise `RuntimeError` with message
`Job failed: x`, returning no results and issuing no results request. -/
theorem poll_until_complete_raises_on_failed
    (c : ApartmentScraperClient) (env : Env) (clock : Nat → Int) (job_id : Json)
    (interval timeout : Int) (fuel n k : Nat) (p : Json) (st : JobStatus) (x : String)
    (hfuel : k < fuel)
    (hclock : ∀ j, j ≤ k → clock (j + 1) - clock 0 < timeout)
    (hpend : ∀ j, j < k → ∃ q, env (n + j) (statusHttpReq c job_id) = .ok q ∧
      goodPending q = true)
    (hp : env (n + k) (statusHttpReq c job_id) = .ok p)
    (hdec : decodeJobStatus p = .ok st)
    (hst : st.status = Json.str "failed")
    (herr : st.error = Json.str x) :
    c.poll_until_complete env clock job_id interval timeout fuel n =
      some (.error (.runtimeError ("Job failed: " ++ x)),
        List.replicate (k + 1) (statusHttpReq c job_id)) := by
  unfold ApartmentScraperClient.poll_until_complete
  have hfe : fuel = k + ((fuel - k - 1) + 1) := by omega
  rw [hfe, pollLoop_skip c env clock job_id timeout k ((fuel - k - 1) + 1) 0 n
    (fun j hj => by simpa using hclock j (Nat.le_of_lt hj)) hpend]
  rw [pollLoop_failed_step c env clock job_id timeout (fuel - k - 1) (0 + k) (n + k) p st
    (by simpa using hclock k le_rfl) hp hdec hst]
  rw [herr]
  simp [List.replicate_succ', pyStr]

/-- C3: a polled status `cancelled` makes `poll_until_complete` raise
`RuntimeError('Job was cancelled')`, an error distinct from every
job-failure error `RuntimeError('Job failed: ...')`. -/
theorem poll_until_complete_raises_on_cancelled
    (c : ApartmentScraperClient) (env : Env) (clock : Nat → Int) (job_id : Json)
    (interval timeout : Int) (fuel n k : Nat) (p : Json) (st : JobStatus)
    (hfuel : k < fuel)
    (hclock : ∀ j, j ≤ k → clock (j + 1) - clock 0 < timeout)
    (hpend : ∀ j, j < k → ∃ q, env (n + j) (statusHttpReq c job_id) = .ok q ∧
      goodPending q = true)
    (hp : env (n + k) (statusHttpReq c job_id) = .ok p)
    (hdec : decodeJobStatus p = .ok st)
    (hst : st.status = Json.str "cancelled") :
    c.poll_until_complete env clock job_id interval timeout fuel n =
      some (.error (.runtimeError "Job was cancelled"),
        List.replicate (k + 1) (statusHttpReq c job_id)) ∧
    (∀ y, PyError.runtimeError "Job was cancelled" ≠
      PyError.runtimeError ("Job failed: " ++ y)) := by
  constructor
  · unfold ApartmentScraperClient.poll_until_complete
    have hfe : fuel = k + ((fuel - k - 1) + 1) := by omega
    rw [hfe, pollLoop_skip c env clock job_id timeout k ((fuel - k - 1) + 1) 0 n
      (fun j hj => by simpa using hclock j (Nat.le_of_lt hj)) hpend]
    rw [pollLoop_cancelled_step c env clock job_id timeout (fuel - k - 1) (0 + k) (n + k) p st
      (by simpa using hclock k le_rfl) hp hdec hst]
    simp [List.replicate_succ']
  · intro y h
    injection h with h2
    exact cancelled_msg_ne_failed_msg y h2

/-- C4: when every poll before the clock exceeds `timeout` is well formed
and non-terminal, `poll_until_complete` raises the `TimeoutError`, an
error distinct from every `RuntimeError` (so from both the failed-job and
the cancelled-job errors). -/
theorem poll_until_complete_times_out
    (c : ApartmentScraperClient) (env : Env) (clock : Nat → Int) (job_id : Json)
    (interval timeout : Int) (fuel n N : Nat)
    (hfuel : N < fuel)
    (hclock : ∀ j, j < N → clock (j + 1) - clock 0 < timeout)
    (hclockN : ¬ (clock (N + 1) - clock 0 < timeout))
    (hpend : ∀ j, j < N → ∃ q, env (n + j) (statusHttpReq c job_id) = .ok q ∧
      goodPending q = true) :
    c.poll_until_complete env clock job_id interval timeout fuel n =
      some (.error (.timeoutError
        ("Job did not complete within " ++ toString timeout ++ " seconds")),
        List.replicate N (statusHttpReq c job_id)) ∧
    (∀ m m2, PyError.timeoutError m ≠ PyError.runtimeError m2) := by
  constructor
  · unfold ApartmentScraperClient.poll_until_complete
    have hfe : fuel = N + ((fuel - N - 1) + 1) := by omega
    rw [hfe, pollLoop_skip c env clock job_id timeout N ((fuel - N - 1) + 1) 0 n
      (fun j hj => by simpa using hclock j hj) hpend]
    rw [pollLoop_timeout_step c env clock job_id timeout (fuel - N - 1) (0 + N) (n + N)
      (by simpa using hclockN)]
    simp
  · intro m m2 h
    cases h

/-- The truthiness test `if request.filters:` of `start_scrape`: true only
for a present, non-empty filters mapping. -/
def filtersTruthy (request : ScrapeRequest) : Bool :=
  match request.filters with
  | some f => !f.isEmpty
  | none => false

/-- A request whose filters mapping is present but empty. -/
def emptyFiltersRequest : ScrapeRequest where
  city := "atlanta"
  state := "ga"
  filters := some []
  max_pages := 5

/-- C5 as stated is false: with a present but empty filters mapping the
code omits the `filters` key, while the claim requires it whenever the
mapping is present. -/
theorem start_scrape_filters_key_counterexample :
    ¬ ((startPayload emptyFiltersRequest).map Prod.fst =
        ["city", "state", "maxPages"] ++
          (if emptyFiltersRequest.filters.isSome then ["filters"] else [])) := by
  decide

/-- C5 (amended): `start_scrape` issues exactly one POST whose JSON body
has exactly the keys `city`, `state`, `maxPages` with the request's
values, plus `filters` exactly when the request's filters mapping is
present and non-empty (Python truthiness); no other key is sent and no
present field is dropped. -/
theorem start_scrape_sends_exact_fields (c : ApartmentScraperClient) (env : Env) (n : Nat)
    (request : ScrapeRequest) :
    (c.start_scrape env n request).2 = [startHttpReq c request] ∧
    (startHttpReq c request).body = some (Json.obj (startPayload request)) ∧
    ((startPayload request).map Prod.fst =
      ["city", "state", "maxPages"] ++ (if filtersTruthy request then ["filters"] else [])) ∧
    Json.lookupKey (startPayload request) "city" = some (.str request.city) ∧
    Json.lookupKey (startPayload request) "state" = some (.str request.state) ∧
    Json.lookupKey (startPayload request) "maxPages" = some (.num request.max_pages) ∧
    (Json.lookupKey (startPayload request) "filters" =
      match request.filters with
      | some f => if f.isEmpty then none else some (.obj f)
      | none => none) := by
  refine ⟨?_, rfl, ?_, ?_, ?_, ?_, ?_⟩
  · unfold ApartmentScraperClient.start_scrape
    cases h : env n (startHttpReq c request) <;> simp [h]
  all_goals
    cases hf : request.filters with
    | none => simp [startPayload, filtersTruthy, hf, Json.lookupKey]
    | some f =>
      cases hfe : f.isEmpty <;>
        simp [startPayload, filtersTruthy, hf, hfe, Json.lookupKey]

/-- C6: `scrape_and_wait` starts the job (the first request is the start
POST), polls with the job id taken from the start response, and returns
exactly the `results` field of the payload the poll returned. -/
theorem scrape_and_wait_returns_results_field
    (c : ApartmentScraperClient) (env : Env) (clock : Nat → Int) (request : ScrapeRequest)
    (poll_interval : Int) (fuel : Nat) (sp job_id fp res : Json) (tr2 : List HttpRequest)
    (hstart : env 0 (startHttpReq c request) = .ok sp)
    (hjid : sp.subscript "jobId" = .ok job_id)
    (hpoll : c.poll_until_complete env clock job_id poll_interval 300 fuel 1 =
      some (.ok fp, tr2))
    (hres : fp.subscript "results" = .ok res) :
    c.scrape_and_wait env clock request poll_interval fuel =
      some (.ok res, startHttpReq c request :: tr2) := by
  unfold ApartmentScraperClient.scrape_and_wait ApartmentScraperClient.start_scrape
  simp only [hstart, hjid, hpoll, hres, List.singleton_append]

/-- C7: on every operation, an HTTP-library failure on a single request
propagates at once as that error, with no retry and no further request
issued by the operation (for the poll loop: the failing poll is the last
request, and no results request follows). -/
theorem single_request_failure_propagates :
    (∀ (c : ApartmentScraperClient) (env : Env) (n : Nat) (request : ScrapeRequest)
        (e : String), env n (startHttpReq c request) = .error e →
      c.start_scrape env n request = (.error (.httpError e), [startHttpReq c request])) ∧
    (∀ (c : ApartmentScraperClient) (env : Env) (n : Nat) (job_id : Json) (e : String),
      env n (statusHttpReq c job_id) = .error e →
      c.get_status env n job_id = (.error (.httpError e), [statusHttpReq c job_id])) ∧
    (∀ (c : ApartmentScraperClient) (env : Env) (n : Nat) (job_id : Json) (e : String),
      env n (resultsHttpReq c job_id) = .error e →
      c.get_results env n job_id = (.error (.httpError e), [resultsHttpReq c job_id])) ∧
    (∀ (c : ApartmentScraperClient) (env : Env) (n : Nat) (job_id : Json) (e : String),
      env n (cancelHttpReq c job_id) = .error e →
      c.cancel_job env n job_id = (.error (.httpError e), [cancelHttpReq c job_id])) ∧
    (∀ (c : ApartmentScraperClient) (env : Env) (clock : Nat → Int) (job_id : Json)
        (interval timeout : Int) (fuel n k : Nat) (e : String),
      k < fuel →
      (∀ j, j ≤ k → clock (j + 1) - clock 0 < timeout) →
      (∀ j, j < k → ∃ q, env (n + j) (statusHttpReq c job_id) = .ok q ∧
        goodPending q = true) →
      env (n + k) (statusHttpReq c job_id) = .error e →
      c.poll_until_complete env clock job_id interval timeout fuel n =
        some (.error (.httpError e), List.replicate (k + 1) (statusHttpReq c job_id))) := by
  refine ⟨?_, ?_, ?_, ?_, ?_⟩
  · intro c env n request e h
    unfold ApartmentScraperClient.start_scrape
    simp only [h]
  · intro c env n job_id e h
    unfold ApartmentScraperClient.get_status
    simp only [h]
  · intro c env n job_id e h
    unfold ApartmentScraperClient.get_results
    simp only [h]
  · intro c env n job_id e h
    unfold ApartmentScraperClient.cancel_job
    simp only [h]
  · intro c env clock job_id interval timeout fuel n k e hfuel hclock hpend hp
    unfold ApartmentScraperClient.poll_until_complete
    have hfe : fuel = k + ((fuel - k - 1) + 1) := by omega
    rw [hfe, pollLoop_skip c env clock job_id timeout k ((fuel - k - 1) + 1) 0 n
      (fun j hj => by simpa using hclock j (Nat.le_of_lt hj)) hpend]
    rw [pollLoop_httpError_step c env clock job_id timeout (fuel - k - 1) (0 + k) (n + k) e
      (by simpa using hclock k le_rfl) hp]
    simp [List.replicate_succ']

/-- C8: `get_status` builds the returned `JobStatus` from the response
payload alone — fields from `jobId`, `status`, `progress`, `createdAt`,
`updatedAt`, with `completedAt`/`error` defaulting to `None` when absent —
whatever the environment and however many requests preceded the call. -/
theorem get_status_constructs_fresh
    (c : ApartmentScraperClient) (env : Env) (n : Nat) (job_id : Json) (data : Json)
    (jv sv pv cv uv : Json)
    (henv : env n (statusHttpReq c job_id) = .ok data)
    (h1 : data.subscript "jobId" = .ok jv)
    (h2 : data.subscript "status" = .ok sv)
    (h3 : data.subscript "progress" = .ok pv)
    (h4 : data.subscript "createdAt" = .ok cv)
    (h5 : data.subscript "updatedAt" = .ok uv) :
    c.get_status env n job_id =
      (.ok { job_id := jv, status := sv, progress := pv, created_at := cv, updated_at := uv,
             completed_at := data.getDefault "completedAt",
             error := data.getDefault "error" },
       [statusHttpReq c job_id]) := by
  unfold ApartmentScraperClient.get_status
  simp only [henv, decodeJobStatus, h1, h2, h3, h4, h5]

lemma append_slash_split (b mid j : String) :
    b ++ ("/" ++ mid) ++ j = b ++ "/" ++ (mid ++ j) := by
  rw [String.append_assoc b ("/" ++ mid) j, String.append_assoc "/" mid j,
    ← String.append_assoc b "/" (mid ++ j)]

lemma head?_dropWhile_eq_ne (c : Char) :
    ∀ l : List Char, (l.dropWhile (fun a => a = c)).head? ≠ some c := by
  intro l
  induction l with
  | nil => simp
  | cons a l ih =>
    by_cases h : a = c
    · simpa [List.dropWhile_cons, h] using ih
    · simp [List.dropWhile_cons, h]

/-- C9: the constructor stores `base_url` with all trailing slashes
removed — so the stored base never ends in a slash, adding a trailing
slash to the caller's URL changes nothing, and every endpoint URL is the
stored base, exactly one slash, then the `api/...` path. -/
theorem init_strips_trailing_slashes
    (base_url : String) (api_key : Option String) (request : ScrapeRequest) (job_id : Json) :
    (ApartmentScraperClient.init base_url api_key).base_url = pyRstrip base_url (Char.ofNat 47) ∧
    (ApartmentScraperClient.init base_url api_key).base_url.data.getLast? ≠
      some (Char.ofNat 47) ∧
    ApartmentScraperClient.init (base_url ++ "/") api_key =
      ApartmentScraperClient.init base_url api_key ∧
    (startHttpReq (ApartmentScraperClient.init base_url api_key) request).url =
      (ApartmentScraperClient.init base_url api_key).base_url ++ "/" ++ "api/scrape/start" ∧
    (statusHttpReq (ApartmentScraperClient.init base_url api_key) job_id).url =
      (ApartmentScraperClient.init base_url api_key).base_url ++ "/" ++
        ("api/scrape/status/" ++ pyStr job_id) ∧
    (resultsHttpReq (ApartmentScraperClient.init base_url api_key) job_id).url =
      (ApartmentScraperClient.init base_url api_key).base_url ++ "/" ++
        ("api/scrape/results/" ++ pyStr job_id) ∧
    (cancelHttpReq (ApartmentScraperClient.init base_url api_key) job_id).url =
      (ApartmentScraperClient.init base_url api_key).base_url ++ "/" ++
        ("api/scrape/cancel/" ++ pyStr job_id) := by
  refine ⟨rfl, ?_, ?_, ?_, ?_, ?_, ?_⟩
  · show (pyRstrip base_url (Char.ofNat 47)).data.getLast? ≠ some (Char.ofNat 47)
    unfold pyRstrip
    rw [List.getLast?_reverse]
    exact head?_dropWhile_eq_ne (Char.ofNat 47) base_url.data.reverse
  · have hb : pyRstrip (base_url ++ "/") (Char.ofNat 47) = pyRstrip base_url (Char.ofNat 47) := by
      unfold pyRstrip
      have hd : (base_url ++ "/").data.reverse.dropWhile (fun a => a = Char.ofNat 47) =
          base_url.data.reverse.dropWhile (fun a => a = Char.ofNat 47) := by
        rw [String.data_append, List.reverse_append]
        show List.dropWhile _ (Char.ofNat 47 :: base_url.data.reverse) = _
        rw [List.dropWhile_cons]
        simp
      rw [hd]
    simp only [ApartmentScraperClient.init, hb]
  · exact (String.append_assoc _ "/" "api/scrape/start").symm
  · exact append_slash_split (ApartmentScraperClient.init base_url api_key).base_url
      "api/scrape/status/" (pyStr job_id)
  · exact append_slash_split (ApartmentScraperClient.init base_url api_key).base_url
      "api/scrape/results/" (pyStr job_id)
  · exact append_slash_split (ApartmentScraperClient.init base_url api_key).base_url
      "api/scrape/cancel/" (pyStr job_id)

/-- C10: a present but empty filters mapping is treated exactly like an
absent one: the body built by `start_scrape` is the same and carries no
`filters` key. -/
theorem start_scrape_empty_filters_like_absent (request : ScrapeRequest)
    (h : request.filters = some []) :
    startPayload request = startPayload { request with filters := none } ∧
    Json.lookupKey (startPayload request) "filters" = none := by
  constructor
  · simp [startPayload, h]
  · simp [startPayload, h, Json.lookupKey]

/-! Concrete fixtures used by the witnesses below. -/

/-- A client built from a base URL with a trailing slash. -/
def clientW : ApartmentScraperClient :=
  ApartmentScraperClient.init "https://apartment-scraper.workers.dev/" none

/-- A plain request (filters absent, default `max_pages`). -/
def reqW : ScrapeRequest where
  city := "atlanta"
  state := "ga"

/-- A progress mapping with the three keys the progress print reads. -/
def progressPayload : Json :=
  .obj [("currentPage", .num 1), ("totalPages", .num 3), ("listingsScraped", .num 10)]

/-- A well-formed, non-terminal status payload. -/
def pendingPayload : Json :=
  .obj [("jobId", .str "job-1"), ("status", .str "processing"),
        ("progress", progressPayload), ("createdAt", .str "t0"), ("updatedAt", .str "t1")]

/-- A status payload with status `completed`. -/
def completedPayload : Json :=
  .obj [("jobId", .str "job-1"), ("status", .str "completed"),
        ("progress", progressPayload), ("createdAt", .str "t0"), ("updatedAt", .str "t2"),
        ("completedAt", .str "t2")]

/-- A status payload with status `failed` and a server error text. -/
def failedPayload : Json :=
  .obj [("jobId", .str "job-1"), ("status", .str "failed"),
        ("progress", progressPayload), ("createdAt", .str "t0"), ("updatedAt", .str "t2"),
        ("error", .str "scrape blocked")]

/-- A status payload with status `cancelled`. -/
def cancelledPayload : Json :=
  .obj [("jobId", .str "job-1"), ("status", .str "cancelled"),
        ("progress", progressPayload), ("createdAt", .str "t0"), ("updatedAt", .str "t2")]

/-- One scraped listing. -/
def listingW : Json :=
  .obj [("propertyName", .str "The Oaks"), ("address", .str "1 Main St"),
        ("city", .str "atlanta"), ("state", .str "ga"), ("minPrice", .num 1500),
        ("maxPrice", .num 2100), ("beds", .num 2), ("baths", .num 2), ("sqft", .num 950)]

/-- A results payload with a `results` array plus metadata. -/
def resultsPayload : Json :=
  .obj [("results", .arr [listingW]), ("count", .num 1)]

/-- The response to the start POST. -/
def startRespPayload : Json :=
  .obj [("jobId", .str "job-1"), ("status", .str "pending")]

/-- A session history: start response, one pending poll, one completed
poll, then the results payload. -/
def envHappy : Env := fun n _ =>
  if n = 0 then .ok startRespPayload
  else if n = 1 then .ok pendingPayload
  else if n = 2 then .ok completedPayload
  else .ok resultsPayload

/-- Every poll reports `failed`. -/
def envFail : Env := fun _ _ => .ok failedPayload

/-- Every poll reports `cancelled`. -/
def envCancel : Env := fun _ _ => .ok cancelledPayload

/-- Every poll reports a non-terminal status. -/
def envPending : Env := fun _ _ => .ok pendingPayload

/-- Every request fails at the HTTP layer. -/
def envDown : Env := fun _ _ => .error "connection reset"

/-- A clock that never advances. -/
def clockZero : Nat → Int := fun _ => 0

/-- A clock advancing one second per reading. -/
def clockTick : Nat → Int := fun i => (i : Int)

/-- `decodeJobStatus completedPayload`. -/
def stCompleted : JobStatus where
  job_id := .str "job-1"
  status := .str "completed"
  progress := progressPayload
  created_at := .str "t0"
  updated_at := .str "t2"
  completed_at := .str "t2"
  error := .null

/-- `decodeJobStatus failedPayload`. -/
def stFailed : JobStatus where
  job_id := .str "job-1"
  status := .str "failed"
  progress := progressPayload
  created_at := .str "t0"
  updated_at := .str "t2"
  completed_at := .null
  error := .str "scrape blocked"

/-- `decodeJobStatus cancelledPayload`. -/
def stCancelled : JobStatus where
  job_id := .str "job-1"
  status := .str "cancelled"
  progress := progressPayload
  created_at := .str "t0"
  updated_at := .str "t2"
  completed_at := .null
  error := .null

/-- The requests the poll of the happy-path session issues. -/
def pollTraceW : List HttpRequest :=
  [statusHttpReq clientW (Json.str "job-1"), statusHttpReq clientW (Json.str "job-1"),
   resultsHttpReq clientW (Json.str "job-1")]

/-- Witness for C1 at a concrete session: one pending poll, then a
completed poll, then the results payload. -/
theorem poll_until_complete_returns_results_on_completed_witness :
    clientW.poll_until_complete envHappy clockZero (Json.str "job-1") 5 300 2 1 =
      some (.ok resultsPayload,
        List.replicate 2 (statusHttpReq clientW (Json.str "job-1")) ++
          [resultsHttpReq clientW (Json.str "job-1")]) :=
  poll_until_complete_returns_results_on_completed clientW envHappy clockZero
    (Json.str "job-1") 5 300 2 1 1 completedPayload stCompleted
    (by decide)
    (fun j _ => by show (0 : Int) - 0 < 300; decide)
    (fun j hj => by
      have hz : j = 0 := Nat.lt_one_iff.mp hj
      subst hz
      exact ⟨pendingPayload, rfl, rfl⟩)
    rfl rfl rfl

/-- Witness for C2 at a concrete session whose first poll reports
`failed` with error text `scrape blocked`. -/
theorem poll_until_complete_raises_on_failed_witness :
    clientW.poll_until_complete envFail clockZero (Json.str "job-1") 5 300 1 0 =
      some (.error (.runtimeError ("Job failed: " ++ "scrape blocked")),
        List.replicate 1 (statusHttpReq clientW (Json.str "job-1"))) :=
  poll_until_complete_raises_on_failed clientW envFail clockZero (Json.str "job-1")
    5 300 1 0 0 failedPayload stFailed "scrape blocked"
    (by decide)
    (fun j _ => by show (0 : Int) - 0 < 300; decide)
    (fun j hj => absurd hj (Nat.not_lt_zero j))
    rfl rfl rfl rfl

/-- Witness for C3 at a concrete session whose first poll reports
`cancelled`. -/
theorem poll_until_complete_raises_on_cancelled_witness :
    clientW.poll_until_complete envCancel clockZero (Json.str "job-1") 5 300 1 0 =
      some (.error (.runtimeError "Job was cancelled"),
        List.replicate 1 (statusHttpReq clientW (Json.str "job-1"))) :=
  (poll_until_complete_raises_on_cancelled clientW envCancel clockZero (Json.str "job-1")
    5 300 1 0 0 cancelledPayload stCancelled
    (by decide)
    (fun j _ => by show (0 : Int) - 0 < 300; decide)
    (fun j hj => absurd hj (Nat.not_lt_zero j))
    rfl rfl rfl).1

/-- Witness for C4: with a one-second clock and a two-second timeout, a
session that stays `processing` times out after one poll. -/
theorem poll_until_complete_times_out_witness :
    clientW.poll_until_complete envPending clockTick (Json.str "job-1") 0 2 2 0 =
      some (.error (.timeoutError
        ("Job did not complete within " ++ toString (2 : Int) ++ " seconds")),
        List.replicate 1 (statusHttpReq clientW (Json.str "job-1"))) :=
  (poll_until_complete_times_out clientW envPending clockTick (Json.str "job-1")
    0 2 2 0 1
    (by decide)
    (fun j hj => by
      have hz : j = 0 := Nat.lt_one_iff.mp hj
      subst hz
      decide)
    (by decide)
    (fun j hj => by
      have hz : j = 0 := Nat.lt_one_iff.mp hj
      subst hz
      exact ⟨pendingPayload, rfl, rfl⟩)).1

/-- Witness for C6 on the happy-path session: the returned value is the
`results` array of the final payload, after the start POST and the poll
trace. -/
theorem scrape_and_wait_returns_results_field_witness :
    clientW.scrape_and_wait envHappy clockZero reqW 5 3 =
      some (.ok (Json.arr [listingW]), startHttpReq clientW reqW :: pollTraceW) :=
  scrape_and_wait_returns_results_field clientW envHappy clockZero reqW 5 3
    startRespPayload (Json.str "job-1") resultsPayload (Json.arr [listingW]) pollTraceW
    rfl rfl rfl rfl

/-- Witness for C7: with the HTTP layer down, each operation returns the
library error after its single request, and the poll aborts on its first
poll. -/
theorem single_request_failure_propagates_witness :
    (clientW.start_scrape envDown 0 reqW =
      (.error (.httpError "connection reset"), [startHttpReq clientW reqW])) ∧
    (clientW.get_status envDown 0 (Json.str "job-1") =
      (.error (.httpError "connection reset"), [statusHttpReq clientW (Json.str "job-1")])) ∧
    (clientW.get_results envDown 0 (Json.str "job-1") =
      (.error (.httpError "connection reset"), [resultsHttpReq clientW (Json.str "job-1")])) ∧
    (clientW.cancel_job envDown 0 (Json.str "job-1") =
      (.error (.httpError "connection reset"), [cancelHttpReq clientW (Json.str "job-1")])) ∧
    (clientW.poll_until_complete envDown clockZero (Json.str "job-1") 5 300 1 0 =
      some (.error (.httpError "connection reset"),
        List.replicate 1 (statusHttpReq clientW (Json.str "job-1")))) :=
  ⟨single_request_failure_propagates.1 clientW envDown 0 reqW "connection reset" rfl,
   single_request_failure_propagates.2.1 clientW envDown 0 (Json.str "job-1")
     "connection reset" rfl,
   single_request_failure_propagates.2.2.1 clientW envDown 0 (Json.str "job-1")
     "connection reset" rfl,
   single_request_failure_propagates.2.2.2.1 clientW envDown 0 (Json.str "job-1")
     "connection reset" rfl,
   single_request_failure_propagates.2.2.2.2 clientW envDown clockZero (Json.str "job-1")
     5 300 1 0 0 "connection reset"
     (by decide)
     (fun j _ => by show (0 : Int) - 0 < 300; decide)
     (fun j hj => absurd hj (Nat.not_lt_zero j))
     rfl⟩

/-- Witness for C8 on a concrete completed payload (with `completedAt`
present and `error` absent, hence `None`). -/
theorem get_status_constructs_fresh_witness :
    clientW.get_status envHappy 2 (Json.str "job-1") =
      (.ok stCompleted, [statusHttpReq clientW (Json.str "job-1")]) :=
  get_status_constructs_fresh clientW envHappy 2 (Json.str "job-1") completedPayload
    (Json.str "job-1") (Json.str "completed") progressPayload (Json.str "t0") (Json.str "t2")
    rfl rfl rfl rfl rfl rfl

/-- Witness for C10 on the concrete empty-filters request. -/
theorem start_scrape_empty_filters_like_absent_witness :
    startPayload emptyFiltersRequest =
      startPayload { emptyFiltersRequest with filters := none } ∧
    Json.lookupKey (startPayload emptyFiltersRequest) "filters" = none :=
  start_scrape_empty_filters_like_absent emptyFiltersRequest rfl
